import Mathlib

/-!
Verification of the adversarial-robustness toolkit sources:
`art/attacks/evasion/adversarial_patch/adversarial_patch_tensorflow.py`
(the `AdversarialPatchTensorFlowV2` attack) and
`art/defences/trainer/certified_trainer_pytorch.py`
(the `DefaultLinearScheduler` and `AdversarialTrainerCertified` trainer).

The tensor values are modelled as exact rationals; a patch is the flat list
of its entries.  Framework calls (model forward passes, autodiff) enter as
explicit parameters: a gradient is a list of rationals, a classifier's
per-class certification routine is a Boolean function of the two class
indices that the Python code passes to it.
-/

namespace AdvPatch

/-- `tf.clip_by_value x c0 c1` on a scalar entry: clamp `x` into `[c0, c1]`. -/
def clipValue (c0 c1 x : ℚ) : ℚ := max c0 (min x c1)

/-- The `constraint` lambda installed on the patch variable in
`AdversarialPatchTensorFlowV2.__init__`: clip every entry of the patch to
the classifier's clip-value range. -/
def patchConstraint (c0 c1 : ℚ) (p : List ℚ) : List ℚ :=
  p.map (clipValue c0 c1)

/-- The initial patch built in `__init__`:
`np.ones(patch_shape) * mean_value` with
`mean_value = (clip_values[1] - clip_values[0]) / 2 + clip_values[0]`. -/
def initialPatch (n : ℕ) (c0 c1 : ℚ) : List ℚ :=
  List.replicate n ((c1 - c0) / 2 + c0)

/-- `reset_patch(initial_patch_value)`:
`self._patch.assign(np.ones(shape=self.patch_shape) * initial_value)`.
`tf.Variable.assign` does not run the variable's `constraint`, so no
clipping is applied here. -/
def resetPatch (n : ℕ) (v : ℚ) : List ℚ :=
  List.replicate n v

/-- One `tf.keras.optimizers.SGD` (momentum 0) update through
`apply_gradients` on the constrained patch variable: subtract
`learning_rate * gradient` entrywise, then apply the variable's clip
constraint (Keras optimizers re-apply `var.constraint` after the update). -/
def applyGradientsSGD (lr c0 c1 : ℚ) (p g : List ℚ) : List ℚ :=
  patchConstraint c0 c1 (p.zipWith (fun x gi => x - lr * gi) g)

/-- `_train_step(images, target)` restricted to its effect on the patch:
when `target` is `None` the attack is untargeted and every gradient is
negated (`gradients = [-g for g in gradients]`) before
`apply_gradients`; with a target the gradient is used as produced by the
tape.  `targeted` is the flag `self.targeted` that the method sets. -/
def trainStep (targeted : Bool) (lr c0 c1 : ℚ) (p g : List ℚ) : List ℚ :=
  applyGradientsSGD lr c0 c1 p (if targeted then g else g.map (fun x => -x))

/-- A sequence of training iterations as run by `generate`: fold
`_train_step` over the per-iteration (targeted-flag, gradient) pairs. -/
def trainIterations (lr c0 c1 : ℚ) (steps : List (Bool × List ℚ))
    (p : List ℚ) : List ℚ :=
  steps.foldl (fun acc s => trainStep s.1 lr c0 c1 acc s.2) p

/-- The postprocessing-defence assertion condition of
`AdversarialPatchTensorFlowV2.__init__`, written in the source as
`postprocessing_defences is not None or postprocessing_defences != []`.
`pd = none` models a `None` defence list; in Python `None != []` is
`True`. -/
def postprocessingCheck (pd : Option (List String)) : Bool :=
  pd.isSome || !(pd == some [])

/-- The chain of `assert` statements in
`AdversarialPatchTensorFlowV2.__init__`, lines 111-125, in source order:
image channels in `{1, 3}`, patch channels in `{1, 3}`, square patch
(`patch_shape[0] == patch_shape[1]`), and the postprocessing-defence
check.  Returns `true` when every assertion passes, i.e. construction
succeeds without an `AssertionError`. -/
def initAssertionsPass (imgC patchH patchW patchC : ℕ)
    (pd : Option (List String)) : Bool :=
  (imgC == 1 || imgC == 3) &&
  (patchC == 1 || patchC == 3) &&
  (patchH == patchW) &&
  postprocessingCheck pd

end AdvPatch

namespace CertTrainer

/-- `DefaultLinearScheduler` from `certified_trainer_pytorch.py`: the
per-epoch increment and the current bound. -/
structure DefaultLinearScheduler where
  step_per_epoch : ℚ
  bound : ℚ
deriving Repr, DecidableEq

/-- `DefaultLinearScheduler.step`: `self.bound += self.step_per_epoch;
return self.bound`.  The returned value is the `bound` field of the new
state. -/
def DefaultLinearScheduler.step (s : DefaultLinearScheduler) :
    DefaultLinearScheduler :=
  { s with bound := s.bound + s.step_per_epoch }

/-- `n` successive calls to `step()`. -/
def DefaultLinearScheduler.stepN (s : DefaultLinearScheduler) :
    ℕ → DefaultLinearScheduler
  | 0 => s
  | n + 1 => (s.stepN n).step

/-- The scheduler constructed inside `fit` when no user schedule is given:
`DefaultLinearScheduler(step_per_epoch=self.bound / epochs,
initial_bound=0.0)`. -/
def mkFitScheduler (bound : ℚ) (epochs : ℕ) : DefaultLinearScheduler :=
  { step_per_epoch := bound / (epochs : ℚ), bound := 0 }

/-- The number of epochs `fit` runs (`for _ in tqdm(range(epochs))`):
`epochs = nb_epochs` when the `nb_epochs` argument is given, otherwise
`epochs = self.batch_size` (the `elif self.batch_size is not None`
branch).  `selfNbEpochs`, the trainer's `nb_epochs` constructor argument,
is never read by `fit`. -/
def fitEpochs (nbEpochsArg : Option ℕ) (selfNbEpochs : Option ℕ)
    (selfBatchSize : ℕ) : ℕ :=
  match nbEpochsArg with
  | some e => e
  | none => selfBatchSize

/-- The setup block of `fit` for the certification schedule (lines
232-238): the local `certification_schedule_function` is assigned only
when `self.use_certification_schedule` is true and
`self.certification_schedule is None`; in every other case the local name
stays unassigned (`none`). -/
def certificationScheduleFunction (useSched : Bool) (userSchedGiven : Bool)
    (selfBound : ℚ) (epochs : ℕ) : Option DefaultLinearScheduler :=
  if useSched then
    if userSchedGiven then none
    else some (mkFitScheduler selfBound epochs)
  else none

/-- The bound in effect for epoch `epochIdx` (0-based) of `fit`:
with the schedule enabled it is the value returned by the
`certification_schedule_function.step()` call at the top of the epoch —
reading that name when it was never assigned raises `UnboundLocalError`,
modelled as `none`; with the schedule disabled the loop uses
`bound = self.bound`. -/
def epochBound (useSched : Bool) (userSchedGiven : Bool) (selfBound : ℚ)
    (epochs epochIdx : ℕ) : Option ℚ :=
  if useSched then
    match certificationScheduleFunction useSched userSchedGiven selfBound
        epochs with
    | none => none
    | some s => some ((s.stepN (epochIdx + 1)).bound)
  else some selfBound

/-- The per-class certification loop in `fit` (lines 294-299): for every
class `k` in `range(nb_classes)` with `k != concrete_pred`, call
`certify_via_subtraction(predicted_class=concrete_pred,
class_to_consider=k, ...)` and collect the Boolean results.
`certSub pred k` stands for that classifier call. -/
def certificationResults (nbClasses concretePred : ℕ)
    (certSub : ℕ → ℕ → Bool) : List Bool :=
  ((List.range nbClasses).filter (fun k => k != concretePred)).map
    (fun k => certSub concretePred k)

/-- `if all(certification_results): samples_certified += 1` — the sample
counts as certified exactly when every collected check is true. -/
def sampleCertified (nbClasses concretePred : ℕ)
    (certSub : ℕ → ℕ → Bool) : Bool :=
  (certificationResults nbClasses concretePred certSub).all (fun b => b)

/-- Modelled from the spec wording of the certification check, for
comparison with `sampleCertified`: the checks are evaluated against the
sample's correct class (its label), i.e. for every `k` other than the
label, `certify_via_subtraction` receives the label as the dominating
class. -/
def sampleCertifiedSpecLabel (nbClasses label : ℕ)
    (certSub : ℕ → ℕ → Bool) : Bool :=
  (((List.range nbClasses).filter (fun k => k != label)).map
    (fun k => certSub label k)).all (fun b => b)

/-- The inner sample loop of `fit` (lines 256-305): iterate over the
certification set in order, processing one sample per step, and `break`
after processing sample `i` when `(i + 1) % batch_size == 0 and i > 0`.
`certLoopCountAux batchSize i r` is the number of samples still processed
when the loop stands at index `i` with `r` samples remaining. -/
def certLoopCountAux (batchSize : ℕ) : ℕ → ℕ → ℕ
  | _, 0 => 0
  | i, r + 1 =>
    1 + (if (i + 1) % batchSize = 0 ∧ 0 < i then 0
         else certLoopCountAux batchSize (i + 1) r)

/-- The number of samples the inner loop of `fit` processes out of `n`
available samples, for a given `batch_size`. -/
def certLoopCount (batchSize n : ℕ) : ℕ :=
  certLoopCountAux batchSize 0 n

/-- The certified loss of one batch: the per-sample losses of the samples
the inner loop processed are summed and the total divided by
`batch_size` (`certified_loss /= batch_size`).  `losses` lists the
per-sample certification losses of the (shuffled) certification set in
loop order. -/
def certifiedLoss (losses : List ℚ) (batchSize : ℕ) : ℚ :=
  (losses.take (certLoopCount batchSize losses.length)).sum / (batchSize : ℚ)

/-- The externally visible actions of `fit` that the error-handling claims
talk about: setting the model's train/eval mode, and an optimizer step at
the end of a batch. -/
inductive TrainAction where
  | setMode : Bool → TrainAction
  | optimizerStep : ℕ → ℕ → TrainAction
deriving Repr, DecidableEq

/-- Whether an action is an optimizer step (a parameter update). -/
def TrainAction.isOptimizerStep : TrainAction → Bool
  | .optimizerStep _ _ => true
  | _ => false

/-- The action trace of `fit`: the model mode is set first (line 211),
then the optimizer presence is checked (line 213) — with no optimizer a
`ValueError` is raised there and nothing further runs; otherwise each of
the `epochs × num_batch` batches ends in `self._classifier._optimizer.step()`.
The result pairs the actions performed with the raised error, if any. -/
def fitTrace (optimizerPresent : Bool) (trainingMode : Bool)
    (epochs numBatch : ℕ) : List TrainAction × Option String :=
  let prologue := [TrainAction.setMode trainingMode]
  if optimizerPresent then
    (prologue ++
      (List.range epochs).flatMap (fun e =>
        (List.range numBatch).map (fun m => TrainAction.optimizerStep e m)),
     none)
  else
    (prologue,
     some "An optimizer is needed to train the model, but none is provided.")

end CertTrainer

/-! ## Helper lemmas -/

namespace AdvPatch

lemma clipValue_mem {c0 c1 : ℚ} (hc : c0 ≤ c1) (x : ℚ) :
    c0 ≤ clipValue c0 c1 x ∧ clipValue c0 c1 x ≤ c1 := by
  unfold clipValue
  constructor
  · exact le_max_left _ _
  · exact max_le hc (min_le_right _ _)

lemma patchConstraint_mem {c0 c1 : ℚ} (hc : c0 ≤ c1) (p : List ℚ) :
    ∀ x ∈ patchConstraint c0 c1 p, c0 ≤ x ∧ x ≤ c1 := by
  intro x hx
  rcases List.mem_map.mp hx with ⟨y, _, rfl⟩
  exact clipValue_mem hc y

lemma trainStep_mem {c0 c1 : ℚ} (hc : c0 ≤ c1) (t : Bool) (lr : ℚ)
    (p g : List ℚ) : ∀ x ∈ trainStep t lr c0 c1 p g, c0 ≤ x ∧ x ≤ c1 :=
  patchConstraint_mem hc _

lemma trainIterations_mem {c0 c1 : ℚ} (hc : c0 ≤ c1) (lr : ℚ)
    (steps : List (Bool × List ℚ)) (p : List ℚ)
    (hp : ∀ x ∈ p, c0 ≤ x ∧ x ≤ c1) :
    ∀ x ∈ trainIterations lr c0 c1 steps p, c0 ≤ x ∧ x ≤ c1 := by
  induction steps generalizing p with
  | nil => exact hp
  | cons s steps ih =>
    exact ih (trainStep s.1 lr c0 c1 p s.2) (trainStep_mem hc s.1 lr p s.2)

lemma initialPatch_mem {c0 c1 : ℚ} (hc : c0 ≤ c1) (n : ℕ) :
    ∀ x ∈ initialPatch n c0 c1, c0 ≤ x ∧ x ≤ c1 := by
  intro x hx
  rw [initialPatch, List.mem_replicate] at hx
  rw [hx.2]
  constructor <;> linarith

lemma patchConstraint_zipWith (c0 c1 : ℚ) (f : ℚ → ℚ → ℚ)
    (p g : List ℚ) :
    patchConstraint c0 c1 (p.zipWith f g)
      = p.zipWith (fun x y => clipValue c0 c1 (f x y)) g := by
  unfold patchConstraint
  exact List.map_zipWith _ _ _ _

end AdvPatch

namespace CertTrainer

lemma stepN_bound (s : DefaultLinearScheduler) (n : ℕ) :
    (s.stepN n).bound = s.bound + n * s.step_per_epoch := by
  induction n with
  | zero => simp [DefaultLinearScheduler.stepN]
  | succ n ih =>
    rw [DefaultLinearScheduler.stepN, DefaultLinearScheduler.step]
    push_cast
    have hspe : (s.stepN n).step_per_epoch = s.step_per_epoch := by
      clear ih
      induction n with
      | zero => rfl
      | succ n ih2 => rw [DefaultLinearScheduler.stepN, DefaultLinearScheduler.step]; exact ih2
    simp only [hspe, ih]
    ring

lemma certLoopCountAux_eq {bs : ℕ} (hbs : 2 ≤ bs) :
    ∀ r i, i < bs → certLoopCountAux bs i r = min r (bs - i) := by
  intro r
  induction r with
  | zero => intro i _; simp [certLoopCountAux]
  | succ r ih =>
    intro i hi
    rw [certLoopCountAux]
    by_cases hbreak : (i + 1) % bs = 0 ∧ 0 < i
    · have heq : i + 1 = bs := by
        rcases Nat.lt_or_ge (i + 1) bs with hlt | hge
        · exfalso; rw [Nat.mod_eq_of_lt hlt] at hbreak; omega
        · omega
      rw [if_pos hbreak]
      omega
    · have hlt : i + 1 < bs := by
        rcases Nat.lt_or_ge (i + 1) bs with hlt | hge
        · exact hlt
        · exfalso
          apply hbreak
          have heq : i + 1 = bs := by omega
          exact ⟨by rw [heq]; exact Nat.mod_self bs, by omega⟩
      rw [if_neg hbreak, ih (i + 1) hlt]
      omega

lemma certLoopCount_eq {bs : ℕ} (hbs : 2 ≤ bs) (n : ℕ) :
    certLoopCount bs n = min n bs := by
  rw [certLoopCount, certLoopCountAux_eq hbs n 0 (by omega)]
  omega

end CertTrainer

/-! ## Claims -/

open AdvPatch CertTrainer

/-- C1 counterexample: with clip values `[0, 1]`, `reset_patch(2)` leaves
every patch entry equal to `2`, outside the clip range — `assign`
bypasses the clip constraint, so the claim "`reset_patch(v)` leaves the
patch within bounds for every initial_patch_value `v`" is false. -/
theorem C1_reset_patch_out_of_bounds :
    (2 : ℚ) ∈ AdvPatch.resetPatch 3 2 ∧ ¬((0 : ℚ) ≤ 2 ∧ (2 : ℚ) ≤ 1) := by
  constructor
  · simp [AdvPatch.resetPatch]
  · norm_num

/-- C1 (amended): starting from the constructor's initial patch, every
sequence of patch training iterations leaves every entry of the patch
within the classifier's clip range `[c0, c1]` (the SGD update re-applies
the clip constraint); and `reset_patch(v)` leaves the patch within bounds
whenever the initial value `v` itself lies within bounds — but not for
arbitrary `v`, since `assign` skips the constraint. -/
theorem C1_patch_within_clip_bounds (c0 c1 lr v : ℚ) (n : ℕ)
    (steps : List (Bool × List ℚ)) (hc : c0 ≤ c1) (hv0 : c0 ≤ v)
    (hv1 : v ≤ c1) :
    (∀ x ∈ AdvPatch.trainIterations lr c0 c1 steps
        (AdvPatch.initialPatch n c0 c1), c0 ≤ x ∧ x ≤ c1) ∧
    (∀ x ∈ AdvPatch.resetPatch n v, c0 ≤ x ∧ x ≤ c1) := by
  constructor
  · exact AdvPatch.trainIterations_mem hc lr steps _
      (AdvPatch.initialPatch_mem hc n)
  · intro x hx
    rw [AdvPatch.resetPatch, List.mem_replicate] at hx
    rw [hx.2]
    exact ⟨hv0, hv1⟩

/-- C1 witness: the amended statement at clip range `[0, 1]`, learning
rate `1`, reset value `1/2`, a three-entry patch and one untargeted
iteration with gradient `[1, 1, 1]`. -/
theorem C1_patch_within_clip_bounds_witness :
    (0 : ℚ) ≤ 1 ∧ (0 : ℚ) ≤ 1 / 2 ∧ (1 / 2 : ℚ) ≤ 1 ∧
    ((∀ x ∈ AdvPatch.trainIterations 1 0 1 [(false, [1, 1, 1])]
        (AdvPatch.initialPatch 3 0 1), 0 ≤ x ∧ x ≤ 1) ∧
     (∀ x ∈ AdvPatch.resetPatch 3 (1 / 2), 0 ≤ x ∧ x ≤ 1)) :=
  ⟨by norm_num, by norm_num, by norm_num,
    C1_patch_within_clip_bounds 0 1 1 (1 / 2) 3 [(false, [1, 1, 1])]
      (by norm_num) (by norm_num) (by norm_num)⟩

/-- A `certify_via_subtraction` oracle separating the predicted class
from the label: it reports success exactly when the dominating class
passed to it is class `0`. -/
def c2CertOracle : ℕ → ℕ → Bool := fun predictedClass _ => predictedClass == 0

/-- C2 counterexample: two classes, a sample whose correct class (label)
is `0` but whose concrete model prediction is `1`.  The code passes the
*predicted* class `1` as the dominating class, so with `c2CertOracle`
the sample is not certified, while the claim's reading — checks evaluated
against the correct class `0` — would certify it. -/
theorem C2_certification_ignores_label :
    CertTrainer.sampleCertified 2 1 c2CertOracle = false ∧
    CertTrainer.sampleCertifiedSpecLabel 2 0 c2CertOracle = true := by
  constructor <;> rfl

/-- C2 (amended): the per-class subtraction checks are evaluated against
the model's concrete predicted class for the sample (the argmax of the
concrete forward pass), not its label: the sample counts as certified
exactly when `certify_via_subtraction` succeeds with the predicted class
as the dominating class against every other class. -/
theorem C2_certified_iff_predicted_dominates (nbClasses concretePred : ℕ)
    (certSub : ℕ → ℕ → Bool) :
    CertTrainer.sampleCertified nbClasses concretePred certSub = true ↔
    ∀ k, k < nbClasses → k ≠ concretePred → certSub concretePred k = true := by
  rw [CertTrainer.sampleCertified, CertTrainer.certificationResults,
    List.all_eq_true]
  constructor
  · intro h k hk hne
    exact h _ (List.mem_map.mpr
      ⟨k, List.mem_filter.mpr ⟨List.mem_range.mpr hk, by simpa using hne⟩, rfl⟩)
  · intro h b hb
    rcases List.mem_map.mp hb with ⟨k, hk, rfl⟩
    rcases List.mem_filter.mp hk with ⟨hkr, hkne⟩
    exact h k (List.mem_range.mp hkr) (by simpa using hkne)

/-- C3: the constructor's postprocessing-defence assertion
`postprocessing_defences is not None or postprocessing_defences != []`
is a tautology — it accepts every defence list, including a non-empty
one — while the non-square-patch assertion does reject a non-square
patch.  So construction does *not* fail for classifiers with non-empty
postprocessing defences, contradicting the assertion's own error message
("does not yet support postprocessing defences"). -/
theorem C3_postprocessing_assertion_tautology :
    (∀ pd, AdvPatch.postprocessingCheck pd = true) ∧
    AdvPatch.initAssertionsPass 3 2 2 3 (some ["SomeDefence"]) = true ∧
    AdvPatch.initAssertionsPass 3 2 3 3 none = false := by
  refine ⟨?_, rfl, rfl⟩
  intro pd
  cases pd <;> simp [AdvPatch.postprocessingCheck]

/-- C4: for the scheduler built by `fit` (`initial_bound = 0`,
`step_per_epoch = bound / epochs`), every call to `step()` increases the
stored bound by exactly `bound / epochs`, and after exactly `epochs`
calls the stored bound equals `bound` (exact rational arithmetic). -/
theorem C4_default_scheduler_linear (b : ℚ) (epochs : ℕ)
    (h : 0 < epochs) :
    (∀ n, ((CertTrainer.mkFitScheduler b epochs).stepN (n + 1)).bound
        = ((CertTrainer.mkFitScheduler b epochs).stepN n).bound
          + b / (epochs : ℚ)) ∧
    ((CertTrainer.mkFitScheduler b epochs).stepN epochs).bound = b := by
  constructor
  · intro n
    rw [CertTrainer.stepN_bound, CertTrainer.stepN_bound,
      CertTrainer.mkFitScheduler]
    push_cast
    ring
  · rw [CertTrainer.stepN_bound, CertTrainer.mkFitScheduler]
    have hne : (epochs : ℚ) ≠ 0 := by positivity
    field_simp

/-- C4 witness: self-bound `1` and `4` epochs — the fourth step returns
exactly `1`, and the first step raises the bound from `0` by `1/4`. -/
theorem C4_default_scheduler_linear_witness :
    0 < 4 ∧
    ((CertTrainer.mkFitScheduler 1 4).stepN 4).bound = 1 ∧
    ((CertTrainer.mkFitScheduler 1 4).stepN 1).bound
      = ((CertTrainer.mkFitScheduler 1 4).stepN 0).bound + 1 / (4 : ℚ) :=
  ⟨by norm_num, (C4_default_scheduler_linear 1 4 (by norm_num)).2,
    (C4_default_scheduler_linear 1 4 (by norm_num)).1 0⟩

/-- C5: whenever `step_per_epoch` is non-negative, a `step()` call never
decreases the stored bound. -/
theorem C5_bound_monotone (s : CertTrainer.DefaultLinearScheduler)
    (h : 0 ≤ s.step_per_epoch) : s.bound ≤ s.step.bound := by
  rw [CertTrainer.DefaultLinearScheduler.step]
  dsimp
  linarith

/-- C5 witness: the scheduler with increment `1/2` and current bound `3`. -/
theorem C5_bound_monotone_witness :
    (0 : ℚ) ≤ (1 / 2 : ℚ) ∧
    (CertTrainer.DefaultLinearScheduler.mk (1 / 2) 3).bound
      ≤ (CertTrainer.DefaultLinearScheduler.mk (1 / 2) 3).step.bound :=
  ⟨by norm_num, C5_bound_monotone ⟨1 / 2, 3⟩ (by norm_num)⟩

/-- C6 counterexample: with `batch_size = 1` the break condition
`(i + 1) % batch_size == 0 and i > 0` is false at `i = 0`, so the inner
loop processes *two* samples — more than `batch_size` — and the certified
loss sums two per-sample losses. -/
theorem C6_batch_size_one_overrun :
    CertTrainer.certLoopCount 1 5 = 2 ∧
    ¬(CertTrainer.certLoopCount 1 5 ≤ 1) ∧
    CertTrainer.certifiedLoss [1, 1, 1, 1, 1] 1 = 2 := by
  refine ⟨by decide, by decide, ?_⟩
  norm_num [CertTrainer.certifiedLoss, CertTrainer.certLoopCount,
    CertTrainer.certLoopCountAux]

/-- C6 (amended): for every `batch_size ≥ 2` the inner sample loop of
`fit` processes at most `batch_size` samples (exactly
`min n batch_size` of the `n` available), and the certified loss is the
sum of their per-sample losses divided by `batch_size`; for
`batch_size = 1` the loop instead processes up to two samples. -/
theorem C6_certified_loss_accumulation (batchSize n : ℕ) (losses : List ℚ)
    (h : 2 ≤ batchSize) :
    CertTrainer.certLoopCount batchSize n = min n batchSize ∧
    CertTrainer.certLoopCount batchSize n ≤ batchSize ∧
    CertTrainer.certifiedLoss losses batchSize
      = (losses.take (min losses.length batchSize)).sum / (batchSize : ℚ) := by
  refine ⟨CertTrainer.certLoopCount_eq h n, ?_, ?_⟩
  · rw [CertTrainer.certLoopCount_eq h n]; omega
  · rw [CertTrainer.certifiedLoss, CertTrainer.certLoopCount_eq h]

/-- C6 witness: `batch_size = 3`, seven available samples, four
per-sample losses. -/
theorem C6_certified_loss_accumulation_witness :
    2 ≤ 3 ∧
    (CertTrainer.certLoopCount 3 7 = min 7 3 ∧
     CertTrainer.certLoopCount 3 7 ≤ 3 ∧
     CertTrainer.certifiedLoss [1, 2, 3, 4] 3
       = (([1, 2, 3, 4] : List ℚ).take
            (min ([1, 2, 3, 4] : List ℚ).length 3)).sum / (3 : ℚ)) :=
  ⟨by norm_num, C6_certified_loss_accumulation 3 7 [1, 2, 3, 4] (by norm_num)⟩

/-- C7: in `_train_step`, with no target (untargeted) the cross-entropy
gradient is negated before the SGD update, so each patch entry moves by
`+ learning_rate * gradient` (ascent) and is then clipped; with a target
the gradient is applied unnegated, each entry moving by
`- learning_rate * gradient` (descent). -/
theorem C7_untargeted_gradient_negated (lr c0 c1 : ℚ) (p g : List ℚ) :
    AdvPatch.trainStep false lr c0 c1 p g
      = p.zipWith (fun x gi => AdvPatch.clipValue c0 c1 (x + lr * gi)) g ∧
    AdvPatch.trainStep true lr c0 c1 p g
      = p.zipWith (fun x gi => AdvPatch.clipValue c0 c1 (x - lr * gi)) g := by
  constructor
  · show AdvPatch.applyGradientsSGD lr c0 c1 p (g.map (fun x => -x)) = _
    rw [AdvPatch.applyGradientsSGD, AdvPatch.patchConstraint_zipWith,
      List.zipWith_map_right]
    have harg : (fun (x gi : ℚ) => AdvPatch.clipValue c0 c1 (x - lr * -gi))
        = fun x gi => AdvPatch.clipValue c0 c1 (x + lr * gi) := by
      funext x gi
      congr 1
      ring
    rw [harg]
  · show AdvPatch.applyGradientsSGD lr c0 c1 p g = _
    rw [AdvPatch.applyGradientsSGD, AdvPatch.patchConstraint_zipWith]

/-- C8: when `fit` runs with the certification schedule enabled and a
user-supplied `certification_schedule`, the local
`certification_schedule_function` is never assigned, so the epoch-top
`step()` call fails (`UnboundLocalError`, modelled as `none`) — the
user scheduler is never consulted.  Only the default path (no user
schedule) produces a bound, e.g. `1/4` at the first of four epochs with
`self.bound = 1`. -/
theorem C8_user_scheduler_never_used (b : ℚ) (e i : ℕ) :
    CertTrainer.epochBound true true b e i = none ∧
    CertTrainer.epochBound true false 1 4 0 = some (1 / 4) := by
  constructor
  · simp [CertTrainer.epochBound, CertTrainer.certificationScheduleFunction]
  · simp [CertTrainer.epochBound, CertTrainer.certificationScheduleFunction,
      CertTrainer.mkFitScheduler, CertTrainer.DefaultLinearScheduler.stepN,
      CertTrainer.DefaultLinearScheduler.step]

/-- C9: when the wrapped classifier has no optimizer, `fit` raises the
`ValueError` "An optimizer is needed to train the model, but none is
provided." and the only action already performed is setting the model's
train/eval mode — no optimizer step (parameter update) ever occurs. -/
theorem C9_missing_optimizer_aborts (tm : Bool) (epochs numBatch : ℕ) :
    (CertTrainer.fitTrace false tm epochs numBatch).2
      = some "An optimizer is needed to train the model, but none is provided." ∧
    ∀ a ∈ (CertTrainer.fitTrace false tm epochs numBatch).1,
      a.isOptimizerStep = false := by
  constructor
  · rfl
  · intro a ha
    simp only [CertTrainer.fitTrace, if_neg (Bool.false_ne_true),
      List.mem_singleton] at ha
    rw [ha]
    rfl

/-- C10: when `fit` is called with `nb_epochs = None`, the
`elif self.batch_size is not None` branch sets the epoch count to the
trainer's `batch_size` constructor argument, not its `nb_epochs`
constructor argument (which `fit` never reads): with `batch_size = 10`
and constructor `nb_epochs = 20`, ten epochs run, not twenty. -/
theorem C10_default_epochs_is_batch_size (selfNbEpochs : Option ℕ)
    (selfBatchSize : ℕ) :
    CertTrainer.fitEpochs none selfNbEpochs selfBatchSize = selfBatchSize ∧
    CertTrainer.fitEpochs none (some 20) 10 ≠ 20 :=
  ⟨rfl, by decide⟩
